import Mathlib

/-!
Shallow embedding of `src/app.py` (AI Chat: conversational chat relay).

Modelling conventions:
* Python dict `conversations` is a function `String → Option (List Turn)`
  (`none` = key absent); handlers thread it explicitly instead of mutating
  a global.
* The outbound HTTPS call of `ChatBot.chat` is an oracle
  `net : ApiRequest → HttpResult`: how the environment reacts to the request
  the code builds.  `HttpResult.exn` covers every exception raised inside the
  `try` block (network error, timeout, and the KeyError raised while indexing
  a malformed payload is covered by `ApiResponse.malformed`), carrying the
  rendered description `str(e)` of the exception.
* Python `str.strip()` is `strTrim` (ASCII whitespace), `str.lower()` is
  `strLower` (ASCII case folding), and `pat in s` is `strContains s pat`
  (all inputs involved are ASCII, where these agree with Python).
* The wall-clock timestamp `datetime.now().isoformat()` is an input `now`.
-/

namespace AIChat

/-- Message role strings used by app.py: "user", "assistant", "system". -/
inductive Role where
  | user
  | assistant
  | system
deriving DecidableEq, Repr

/-- One message dict `{"role": ..., "content": ...}`. -/
structure Turn where
  role : Role
  content : String
deriving DecidableEq, Repr

/-- The global `conversations` dict: conversation id → list of turns. -/
abbrev Conversations := String → Option (List Turn)

/-- `charsStartWith s p` : does char list `s` start with `p`? -/
def charsStartWith : List Char → List Char → Bool
  | _, [] => true
  | [], _ :: _ => false
  | c :: cs, p :: ps => c == p && charsStartWith cs ps

/-- `charsContain s p` : does `p` occur as a contiguous run inside `s`? -/
def charsContain : List Char → List Char → Bool
  | [], pat => charsStartWith [] pat
  | c :: cs, pat => charsStartWith (c :: cs) pat || charsContain cs pat

/-- The Python substring test `pat in s`. -/
def strContains (s pat : String) : Bool :=
  charsContain s.toList pat.toList

/-- Python `s.lower()` (ASCII case folding). -/
def strLower (s : String) : String :=
  String.mk (s.data.map Char.toLower)

/-- Python `s.strip()` (ASCII whitespace on both ends). -/
def strTrim (s : String) : String :=
  String.mk (((s.data.dropWhile Char.isWhitespace).reverse.dropWhile
    Char.isWhitespace).reverse)

/-- The triple-quoted system prompt of `ChatBot.__init__` (verbatim,
including its embedded newlines and indentation). -/
def system_prompt_text : String :=
  "You are a helpful, friendly AI assistant.\n        You give clear, concise answers and have a warm conversational tone.\n        If you don\x27t know something, you say so honestly."

/-- `ChatBot.__init__` state: `self.api_key`, `self.model`, `self.system_prompt`. -/
structure ChatBot where
  api_key : Option String
  model : String
  system_prompt : String
deriving DecidableEq, Repr

/-- Construct the bot exactly as `ChatBot.__init__` does, given the
environment variable `OPENAI_API_KEY` (None when unset). -/
def mkChatBot (apiKey : Option String) : ChatBot :=
  { api_key := apiKey, model := "gpt-3.5-turbo", system_prompt := system_prompt_text }

/-- `DEMO_MODE = not OPENAI_API_KEY`: true when the key is absent or the
empty string (both are falsy in Python). -/
def DEMO_MODE (apiKey : Option String) : Bool :=
  match apiKey with
  | none => true
  | some s => s = ""

/-- Reply of the greeting branch of `_demo_response`. -/
def greetingReply : String :=
  "Hello! 👋 I\x27m your AI assistant. I\x27m running in demo mode right now, but I can still show you how the interface works. What would you like to chat about?"

/-- Reply of the "how are you" branch of `_demo_response`. -/
def howAreYouReply : String :=
  "I\x27m doing great, thanks for asking! As an AI, I don\x27t have feelings in the human sense, but I\x27m functioning well and ready to help you. What\x27s on your mind?"

/-- Reply of the help-seeking branch of `_demo_response`. -/
def helpReply : String :=
  "I can help with lots of things! In full mode (with an API key), I can:\n\n• Answer questions on almost any topic\n• Help with writing and editing\n• Explain complex concepts\n• Have conversations about ideas\n• Assist with problem-solving\n\nRight now I\x27m in demo mode, so my responses are pre-written. Add an OpenAI API key to unlock the full experience!"

/-- Reply of the coding branch of `_demo_response`. -/
def codeReply : String :=
  "I love talking about code! In full mode, I can:\n\n• Explain programming concepts\n• Help debug code\n• Suggest improvements\n• Write code snippets\n• Discuss best practices\n\nThis is demo mode, but with an API key I can actually help you write and understand code!"

/-- Reply of the weather branch of `_demo_response`. -/
def weatherReply : String :=
  "I\x27m an AI assistant, not a weather service! But I\x27d be happy to chat about climate, meteorology, or recommend ways to check the weather. What interests you?"

/-- Reply of the gratitude branch of `_demo_response`. -/
def thanksReply : String :=
  "You\x27re welcome! Happy to help. Is there anything else you\x27d like to know?"

/-- Reply of the question-mark fallback branch of `_demo_response`. -/
def questionReply : String :=
  "That\x27s a great question! In full mode, I\x27d give you a detailed answer about that. Right now I\x27m running in demo mode without an OpenAI API key, so my responses are limited. Add OPENAI_API_KEY to your .env file for the full AI experience!"

/-- Reply of the final echo branch of `_demo_response` (quotes the original
user text verbatim). -/
def echoReply (user_message : String) : String :=
  "I understand you\x27re saying: \"" ++ user_message ++ "\"\n\nThis is a demo response. With an OpenAI API key, I\x27d provide a thoughtful, contextual reply. The interface you\x27re seeing works exactly the same way - just add your API key to unlock full AI capabilities!"

/-- `ChatBot._demo_response`: the canned keyword cascade, first match wins,
evaluated against the lower-cased text (the `?` rule checks the original). -/
def ChatBot.demo_response (bot : ChatBot) (user_message : String) : String :=
  let user_lower := strLower user_message
  if ["hello", "hi", "hey"].any (fun g => strContains user_lower g) then
    greetingReply
  else if strContains user_lower "how are you" then
    howAreYouReply
  else if ["help", "can you", "what can"].any (fun w => strContains user_lower w) then
    helpReply
  else if ["code", "programming", "python"].any (fun w => strContains user_lower w) then
    codeReply
  else if strContains user_lower "weather" then
    weatherReply
  else if ["thank", "thanks"].any (fun w => strContains user_lower w) then
    thanksReply
  else if strContains user_message "?" then
    questionReply
  else
    echoReply user_message

/-- The JSON body `ChatBot.chat` posts to the completions endpoint. -/
structure ApiRequest where
  model : String
  messages : List Turn
  temperature : ℚ
  max_tokens : ℕ
deriving DecidableEq

/-- Shape of the JSON payload the endpoint answers with:
an `{"error": {...}}` payload (whose "message" field may be missing),
a `{"choices": [...]}` payload listing the message content of each choice,
or anything else (indexing it raises; `desc` is the rendering of the exception). -/
inductive ApiResponse where
  | errorPayload (message : Option String)
  | choices (contents : List String)
  | malformed (desc : String)
deriving DecidableEq, Repr

/-- Outcome of the whole `session.post ... resp.json()` interaction:
either a decoded payload, or an exception (network error, timeout, bad
JSON, ...) whose `str(e)` rendering is `desc`. -/
inductive HttpResult where
  | ok (data : ApiResponse)
  | exn (desc : String)
deriving DecidableEq, Repr

/-- The request `ChatBot.chat` builds: system prompt prepended to the
caller messages, temperature 0.7, max_tokens 500. -/
def ChatBot.buildRequest (bot : ChatBot) (messages : List Turn) : ApiRequest :=
  { model := bot.model,
    messages := { role := Role.system, content := bot.system_prompt } :: messages,
    temperature := 7 / 10,
    max_tokens := 500 }

/-- `ChatBot.chat`.  In demo mode it answers from `_demo_response` on the
content of the last message (`""` when the list is empty).  Otherwise it posts
`buildRequest` and renders the outcome: `except Exception` turns every
raised exception into `"Error: " ++ str(e)` (this includes the IndexError
from an empty choices list and the KeyError from a malformed payload), an
error payload becomes `"Error: " ++ message` with default "Unknown error",
and a non-empty choices list yields the first content verbatim. -/
def ChatBot.chat (bot : ChatBot) (demoMode : Bool) (messages : List Turn)
    (net : ApiRequest → HttpResult) : String :=
  if demoMode then
    bot.demo_response (match messages.getLast? with
      | none => ""
      | some t => t.content)
  else
    match net (bot.buildRequest messages) with
    | HttpResult.exn desc => "Error: " ++ desc
    | HttpResult.ok (ApiResponse.errorPayload m) => "Error: " ++ m.getD "Unknown error"
    | HttpResult.ok (ApiResponse.malformed desc) => "Error: " ++ desc
    | HttpResult.ok (ApiResponse.choices []) => "Error: list index out of range"
    | HttpResult.ok (ApiResponse.choices (c :: _)) => c

/-- `conv[-20:]` as used on line 152: keep the most recent `n` items. -/
def keepLast {α : Type} (n : ℕ) (xs : List α) : List α :=
  xs.drop (xs.length - n)

/-- Responses of the three JSON routes (ignoring HTTP framing):
`badRequest` is the 400 `{"error": ...}` reply, `chatOk` the 200
`{"response", "timestamp", "demo_mode"}` reply, `clearOk` the 200
`{"success": ...}` reply. -/
inductive ApiReply where
  | badRequest (error : String)
  | chatOk (response : String) (timestamp : String) (demo_mode : Bool)
  | clearOk (success : Bool)
deriving DecidableEq, Repr

/-- The `/api/chat` handler (`chat` in app.py): validates the stripped
message, appends the user turn, asks the bot with the updated history,
appends the assistant turn, and truncates to the last 20 messages.
Returns the JSON reply plus the updated `conversations` dict. -/
def chat (bot : ChatBot) (demoMode : Bool) (net : ApiRequest → HttpResult)
    (now : String) (conversations : Conversations)
    (message conversation_id : Option String) : ApiReply × Conversations :=
  let user_message := strTrim (message.getD "")
  let cid := conversation_id.getD "default"
  if user_message = "" then
    (ApiReply.badRequest "Message is required", conversations)
  else
    let conv0 := (conversations cid).getD []
    let conv1 := conv0 ++ [{ role := Role.user, content := user_message }]
    let response := bot.chat demoMode conv1 net
    let conv2 := conv1 ++ [{ role := Role.assistant, content := response }]
    let conv3 := if conv2.length > 20 then keepLast 20 conv2 else conv2
    (ApiReply.chatOk response now demoMode,
     fun id => if id = cid then some conv3 else conversations id)

/-- The `/api/clear` handler (`clear_conversation` in app.py): empties the
conversation when the id is present, otherwise leaves the dict alone;
always answers `{"success": true}`. -/
def clear_conversation (conversations : Conversations)
    (conversation_id : Option String) : ApiReply × Conversations :=
  let cid := conversation_id.getD "default"
  let conversations2 :=
    if (conversations cid).isSome then
      fun id => if id = cid then some ([] : List Turn) else conversations id
    else conversations
  (ApiReply.clearOk true, conversations2)

/-- Iterate the `/api/chat` handler over a list of messages, all on the
same conversation id, threading the `conversations` dict. -/
def runChats (bot : ChatBot) (demoMode : Bool) (net : ApiRequest → HttpResult)
    (now : String) (cid : String) :
    Conversations → List String → Conversations
  | cs, [] => cs
  | cs, m :: ms =>
      runChats bot demoMode net now cid
        (chat bot demoMode net now cs (some m) (some cid)).2 ms

/-- The full sequence of turns the handler appends over a run of
`/api/chat` calls: `conv` is the retained history at the start (each
assistant reply is generated from the retained, truncated view, exactly
as the handler does). -/
def chatTrace (bot : ChatBot) (demoMode : Bool) (net : ApiRequest → HttpResult) :
    List Turn → List String → List Turn
  | _, [] => []
  | conv, m :: ms =>
      let u : Turn := { role := Role.user, content := strTrim m }
      let reply := bot.chat demoMode (conv ++ [u]) net
      let a : Turn := { role := Role.assistant, content := reply }
      u :: a :: chatTrace bot demoMode net (keepLast 20 (conv ++ [u, a])) ms

/-! ### Lemmas about `keepLast` (the `conv[-20:]` truncation) -/

theorem keepLast_of_le {α : Type} {n : ℕ} {xs : List α} (h : xs.length ≤ n) :
    keepLast n xs = xs := by
  unfold keepLast
  rw [Nat.sub_eq_zero_of_le h, List.drop_zero]

theorem length_keepLast {α : Type} (n : ℕ) (xs : List α) :
    (keepLast n xs).length = min n xs.length := by
  unfold keepLast
  rw [List.length_drop]
  omega

theorem keepLast_append_of_le {α : Type} {n : ℕ} (p : List α) {zs : List α}
    (h : n ≤ zs.length) : keepLast n (p ++ zs) = keepLast n zs := by
  unfold keepLast
  rw [List.length_append]
  have h2 : p.length + zs.length - n = p.length + (zs.length - n) := by omega
  rw [h2, List.drop_append]

theorem keepLast_append_keepLast {α : Type} (n : ℕ) (xs ys : List α) :
    keepLast n (keepLast n xs ++ ys) = keepLast n (xs ++ ys) := by
  rcases le_or_lt xs.length n with h | h
  · rw [keepLast_of_le h]
  · have hx : xs.take (xs.length - n) ++ keepLast n xs = xs :=
      List.take_append_drop _ _
    have hlen : n ≤ (keepLast n xs ++ ys).length := by
      rw [List.length_append, length_keepLast]
      omega
    calc keepLast n (keepLast n xs ++ ys)
        = keepLast n (xs.take (xs.length - n) ++ (keepLast n xs ++ ys)) :=
          (keepLast_append_of_le _ hlen).symm
      _ = keepLast n (xs ++ ys) := by rw [← List.append_assoc, hx]

theorem keepLast_append_right {α : Type} {n : ℕ} (xs : List α) {ys : List α}
    (h : ys.length ≤ n) : ∃ p : List α, keepLast n (xs ++ ys) = p ++ ys := by
  refine ⟨xs.drop (xs.length + ys.length - n), ?_⟩
  unfold keepLast
  rw [List.length_append]
  exact List.drop_append_of_le_length (by omega)

/-! ### Concrete instances used by the witnesses -/

/-- An empty `conversations` dict. -/
def noConvs : Conversations := fun _ => none

/-- A network oracle whose call always raises (e.g. a connection timeout). -/
def exnNet : ApiRequest → HttpResult := fun _ => HttpResult.exn "boom"

/-- A network oracle answering with one well-formed completion choice. -/
def okNet : ApiRequest → HttpResult :=
  fun _ => HttpResult.ok (ApiResponse.choices ["Hi!"])

/-- The `/api/chat` handler on a non-blank message, in closed form: the
reply is the answer of the bot over the history extended with the new user
turn, and the stored conversation becomes the last 20 entries of the old
history plus the user turn and the assistant turn. -/
theorem chat_of_ne (bot : ChatBot) (dm : Bool) (net : ApiRequest → HttpResult)
    (now : String) (cs : Conversations) (message conversation_id : Option String)
    (h : strTrim (message.getD "") ≠ "") :
    chat bot dm net now cs message conversation_id =
      (ApiReply.chatOk
        (bot.chat dm ((cs (conversation_id.getD "default")).getD [] ++
          [⟨Role.user, strTrim (message.getD "")⟩]) net) now dm,
       fun id => if id = conversation_id.getD "default" then
           some (keepLast 20 ((cs (conversation_id.getD "default")).getD [] ++
             [⟨Role.user, strTrim (message.getD "")⟩,
              ⟨Role.assistant,
               bot.chat dm ((cs (conversation_id.getD "default")).getD [] ++
                 [⟨Role.user, strTrim (message.getD "")⟩]) net⟩]))
         else cs id) := by
  have htr : ∀ (l : List Turn),
      (if l.length > 20 then keepLast 20 l else l) = keepLast 20 l := by
    intro l
    split
    · rfl
    · exact (keepLast_of_le (by omega)).symm
  simp only [chat]
  rw [if_neg h, htr]
  simp only [List.append_assoc, List.cons_append, List.nil_append]

/-! ### The claims -/

/-- C1: on a message that is non-blank after trimming, `/api/chat` appends
one user turn carrying the trimmed text and then one assistant turn
carrying the reply of the bot, the bot is invoked on the history that already
includes the new user turn, the reply text is returned, and the two new
turns sit at the end of the retained conversation in that order. -/
theorem handleTurn_appends_user_then_assistant (bot : ChatBot) (dm : Bool)
    (net : ApiRequest → HttpResult) (now : String) (cs : Conversations)
    (message conversation_id : Option String)
    (h : strTrim (message.getD "") ≠ "") :
    let cid := conversation_id.getD "default"
    let conv0 := (cs cid).getD []
    let u : Turn := ⟨Role.user, strTrim (message.getD "")⟩
    let reply := bot.chat dm (conv0 ++ [u]) net
    let a : Turn := ⟨Role.assistant, reply⟩
    chat bot dm net now cs message conversation_id =
        (ApiReply.chatOk reply now dm,
         fun id => if id = cid then some (keepLast 20 (conv0 ++ [u, a])) else cs id)
      ∧ ∃ p : List Turn, keepLast 20 (conv0 ++ [u, a]) = p ++ [u, a] := by
  intro cid conv0 u reply a
  exact ⟨chat_of_ne bot dm net now cs message conversation_id h,
         keepLast_append_right conv0 (by simp)⟩

theorem handleTurn_appends_user_then_assistant_witness :
    strTrim ((some "Hello").getD "") ≠ "" ∧
    chat (mkChatBot none) true exnNet "t" noConvs (some "Hello") none =
      (ApiReply.chatOk greetingReply "t" true,
       fun id => if id = "default" then
           some [⟨Role.user, "Hello"⟩, ⟨Role.assistant, greetingReply⟩]
         else noConvs id) :=
  ⟨by decide,
   (handleTurn_appends_user_then_assistant (mkChatBot none) true exnNet "t"
     noConvs (some "Hello") none (by decide)).1⟩

/-- Store shape after one successful `/api/chat` call on message `m` and
conversation id `cid`. -/
theorem chat_store_eq (bot : ChatBot) (dm : Bool) (net : ApiRequest → HttpResult)
    (now : String) (cs : Conversations) (m cid : String) (h : strTrim m ≠ "") :
    (chat bot dm net now cs (some m) (some cid)).2
      = fun id => if id = cid then
          some (keepLast 20 ((cs cid).getD [] ++
            [⟨Role.user, strTrim m⟩,
             ⟨Role.assistant,
              bot.chat dm ((cs cid).getD [] ++ [⟨Role.user, strTrim m⟩]) net⟩]))
        else cs id := by
  rw [chat_of_ne bot dm net now cs (some m) (some cid) (by simpa using h)]
  rfl

/-- Each `/api/chat` call appends exactly two turns to the trace. -/
theorem chatTrace_length (bot : ChatBot) (dm : Bool) (net : ApiRequest → HttpResult)
    (msgs : List String) :
    ∀ conv : List Turn, (chatTrace bot dm net conv msgs).length = 2 * msgs.length := by
  induction msgs with
  | nil => intro conv; rfl
  | cons m ms ih =>
      intro conv
      simp only [chatTrace, List.length_cons, ih, List.length_cons]
      omega

/-- Running the handler over a list of non-blank messages leaves the
conversation holding the last 20 entries of the initial history followed
by the full appended trace. -/
theorem runChats_getD (bot : ChatBot) (dm : Bool) (net : ApiRequest → HttpResult)
    (now : String) (cid : String) (msgs : List String) :
    ∀ cs : Conversations, (∀ m ∈ msgs, strTrim m ≠ "") →
      ((cs cid).getD []).length ≤ 20 →
      ((runChats bot dm net now cid cs msgs) cid).getD []
        = keepLast 20 ((cs cid).getD [] ++
            chatTrace bot dm net ((cs cid).getD []) msgs) := by
  induction msgs with
  | nil =>
      intro cs _ hlen
      simp only [runChats, chatTrace, List.append_nil]
      exact (keepLast_of_le hlen).symm
  | cons m ms ih =>
      intro cs hne hlen
      have hm : strTrim m ≠ "" := hne m (List.mem_cons_self m ms)
      have hms : ∀ x ∈ ms, strTrim x ≠ "" :=
        fun x hx => hne x (List.mem_cons_of_mem m hx)
      simp only [runChats]
      rw [chat_store_eq bot dm net now cs m cid hm]
      rw [ih _ hms (by simp [length_keepLast])]
      simp only [if_true, ite_true, Option.getD_some]
      rw [keepLast_append_keepLast]
      simp only [chatTrace, List.append_assoc, List.cons_append, List.nil_append]

/-- C2: when the message is empty or whitespace-only after trimming,
`/api/chat` answers 400 `{"error": "Message is required"}`, the
`conversations` dict is returned completely unchanged (no turn appended,
no entry created), and the result does not depend on the network oracle
(the provider is never invoked). -/
theorem handleTurn_rejects_blank_message (bot : ChatBot) (dm : Bool)
    (net : ApiRequest → HttpResult) (now : String) (cs : Conversations)
    (message conversation_id : Option String)
    (h : strTrim (message.getD "") = "") :
    chat bot dm net now cs message conversation_id
      = (ApiReply.badRequest "Message is required", cs) := by
  simp only [chat]
  rw [if_pos h]

theorem handleTurn_rejects_blank_message_witness :
    strTrim ((some "   ").getD "") = "" ∧
    chat (mkChatBot none) true exnNet "t" noConvs (some "   ") none
      = (ApiReply.badRequest "Message is required", noConvs) :=
  ⟨by decide,
   handleTurn_rejects_blank_message (mkChatBot none) true exnNet "t" noConvs
     (some "   ") none (by decide)⟩

/-- C3: the retained history is capped at 20 turns: after any single
successful `/api/chat` call the conversation holds at most 20 turns, and
after N ≥ 21 successive successful calls starting from an unseen
conversation id the retained sequence is exactly the most recent 20 turns
of the full appended trace (a suffix, so oldest discarded first and the
survivors keep their relative order). -/
theorem conversation_capped_at_twenty :
    (∀ (bot : ChatBot) (dm : Bool) (net : ApiRequest → HttpResult) (now : String)
        (cs : Conversations) (message conversation_id : Option String),
      strTrim (message.getD "") ≠ "" →
      (((chat bot dm net now cs message conversation_id).2
          (conversation_id.getD "default")).getD []).length ≤ 20) ∧
    (∀ (bot : ChatBot) (dm : Bool) (net : ApiRequest → HttpResult) (now : String)
        (cid : String) (cs : Conversations) (msgs : List String),
      (∀ m ∈ msgs, strTrim m ≠ "") → cs cid = none → 21 ≤ msgs.length →
      ((runChats bot dm net now cid cs msgs) cid).getD []
          = keepLast 20 (chatTrace bot dm net [] msgs) ∧
      (((runChats bot dm net now cid cs msgs) cid).getD []).length = 20 ∧
      ∃ dropped : List Turn, chatTrace bot dm net [] msgs
          = dropped ++ ((runChats bot dm net now cid cs msgs) cid).getD []) := by
  constructor
  · intro bot dm net now cs message conversation_id h
    rw [chat_of_ne bot dm net now cs message conversation_id h]
    simp [length_keepLast]
  · intro bot dm net now cid cs msgs hne hnone hlen
    have hrun := runChats_getD bot dm net now cid msgs cs hne (by rw [hnone]; simp)
    rw [hnone] at hrun
    simp only [Option.getD_none, List.nil_append] at hrun
    have hT : (chatTrace bot dm net [] msgs).length = 2 * msgs.length :=
      chatTrace_length bot dm net msgs []
    refine ⟨hrun, ?_, ?_⟩
    · rw [hrun, length_keepLast, hT]
      omega
    · refine ⟨(chatTrace bot dm net [] msgs).take
        ((chatTrace bot dm net [] msgs).length - 20), ?_⟩
      rw [hrun]
      exact (List.take_append_drop _ _).symm

theorem conversation_capped_at_twenty_witness :
    noConvs "c" = none ∧
    21 ≤ (List.replicate 21 "hi").length ∧
    (((runChats (mkChatBot none) true exnNet "t" "c" noConvs
        (List.replicate 21 "hi")) "c").getD []).length = 20 := by
  have hne : ∀ m ∈ List.replicate 21 "hi", strTrim m ≠ "" := by
    intro m hm
    rw [List.eq_of_mem_replicate hm]
    decide
  exact ⟨rfl, by simp,
    (conversation_capped_at_twenty.2 (mkChatBot none) true exnNet "t" "c"
      noConvs (List.replicate 21 "hi") hne rfl (by simp)).2.1⟩

/-- C4: in remote mode `ChatBot.chat` is total over every outcome of the
HTTPS call: a raised exception (network error, timeout, bad JSON), a
provider error payload (with or without a "message" field), a malformed
payload, and an empty choices list all yield a reply string embedding the
error description, and a non-empty choices list yields the first content;
no case propagates an exception. -/
theorem remote_chat_total_embeds_errors (bot : ChatBot) (messages : List Turn)
    (net : ApiRequest → HttpResult) :
    (∀ desc, net (bot.buildRequest messages) = HttpResult.exn desc →
        bot.chat false messages net = "Error: " ++ desc) ∧
    (∀ m, net (bot.buildRequest messages)
          = HttpResult.ok (ApiResponse.errorPayload (some m)) →
        bot.chat false messages net = "Error: " ++ m) ∧
    (net (bot.buildRequest messages)
          = HttpResult.ok (ApiResponse.errorPayload none) →
        bot.chat false messages net = "Error: " ++ "Unknown error") ∧
    (∀ desc, net (bot.buildRequest messages)
          = HttpResult.ok (ApiResponse.malformed desc) →
        bot.chat false messages net = "Error: " ++ desc) ∧
    (net (bot.buildRequest messages) = HttpResult.ok (ApiResponse.choices []) →
        bot.chat false messages net = "Error: list index out of range") ∧
    (∀ c rest, net (bot.buildRequest messages)
          = HttpResult.ok (ApiResponse.choices (c :: rest)) →
        bot.chat false messages net = c) := by
  refine ⟨?_, ?_, ?_, ?_, ?_, ?_⟩ <;>
    · intros
      simp only [ChatBot.chat, Bool.false_eq_true, if_false, Option.getD_some,
        Option.getD_none, *]

theorem remote_chat_total_embeds_errors_witness :
    exnNet ((mkChatBot (some "sk-test")).buildRequest []) = HttpResult.exn "boom" ∧
    (mkChatBot (some "sk-test")).chat false [] exnNet = "Error: " ++ "boom" :=
  ⟨rfl,
   (remote_chat_total_embeds_errors (mkChatBot (some "sk-test")) [] exnNet).1
     "boom" rfl⟩

/-- C5: the canned matcher runs its rules in the fixed order of app.py
against the lower-cased latest user text, first match wins: "Hello there!"
and "hey" both take the greeting branch, and the weather question example
input takes the weather branch, which differs from the question-mark fallback. -/
theorem demo_response_priority_examples :
    (mkChatBot none).demo_response "Hello there!" = greetingReply ∧
    (mkChatBot none).demo_response "hey" = greetingReply ∧
    (mkChatBot none).demo_response "What\x27s the weather?" = weatherReply ∧
    weatherReply ≠ questionReply :=
  ⟨by decide, by decide, by decide, by decide⟩

/-- C6: the remote request prepends exactly one synthetic system turn
carrying the fixed persona prompt ahead of all caller-supplied turns, uses
temperature 0.7 and max_tokens 500, and on a successful response the reply
is the message content of the first choice, verbatim. -/
theorem remote_request_shape (apiKey : String) (messages : List Turn) :
    ((mkChatBot (some apiKey)).buildRequest messages).messages
        = ({ role := Role.system, content := system_prompt_text } : Turn) :: messages ∧
    ((mkChatBot (some apiKey)).buildRequest messages).temperature = 7 / 10 ∧
    ((mkChatBot (some apiKey)).buildRequest messages).max_tokens = 500 ∧
    ∀ (net : ApiRequest → HttpResult) (c : String) (rest : List String),
      net ((mkChatBot (some apiKey)).buildRequest messages)
          = HttpResult.ok (ApiResponse.choices (c :: rest)) →
      (mkChatBot (some apiKey)).chat false messages net = c := by
  refine ⟨rfl, rfl, rfl, ?_⟩
  intro net c rest h
  simp only [ChatBot.chat, Bool.false_eq_true, if_false, h]

theorem remote_request_shape_witness :
    okNet ((mkChatBot (some "sk-test")).buildRequest [])
        = HttpResult.ok (ApiResponse.choices ("Hi!" :: [])) ∧
    (mkChatBot (some "sk-test")).chat false [] okNet = "Hi!" :=
  ⟨rfl, (remote_request_shape "sk-test" []).2.2.2 okNet "Hi!" [] rfl⟩

/-- C7: the canned responder is a pure deterministic function of the latest
user text: its output does not depend on the `ChatBot` state it is invoked
on, and in demo mode `ChatBot.chat` does not depend on the network oracle
(no I/O, no mutable state, no randomness). -/
theorem demo_response_deterministic :
    (∀ (b₁ b₂ : ChatBot) (m : String), b₁.demo_response m = b₂.demo_response m) ∧
    (∀ (b : ChatBot) (msgs : List Turn) (net₁ net₂ : ApiRequest → HttpResult),
      b.chat true msgs net₁ = b.chat true msgs net₂) :=
  ⟨fun _ _ _ => rfl, fun _ _ _ _ => rfl⟩

/-- C8: `/api/clear` always answers `{"success": true}`, leaves the cleared
conversation reading back as the empty sequence, is idempotent on the
`conversations` dict, and is an exact no-op on a never-seen identifier. -/
theorem clear_conversation_idempotent (cs : Conversations)
    (conversation_id : Option String) :
    (clear_conversation cs conversation_id).1 = ApiReply.clearOk true ∧
    ((clear_conversation cs conversation_id).2
        (conversation_id.getD "default")).getD [] = [] ∧
    (clear_conversation (clear_conversation cs conversation_id).2
        conversation_id).2 = (clear_conversation cs conversation_id).2 ∧
    (cs (conversation_id.getD "default") = none →
      (clear_conversation cs conversation_id).2 = cs) := by
  refine ⟨rfl, ?_, ?_, ?_⟩
  · by_cases h : (cs (conversation_id.getD "default")).isSome
    · simp [clear_conversation, h]
    · simp only [clear_conversation, if_neg h]
      rw [Option.not_isSome_iff_eq_none] at h
      simp [h]
  · by_cases h : (cs (conversation_id.getD "default")).isSome
    · funext id
      by_cases hid : id = conversation_id.getD "default" <;>
        simp [clear_conversation, h, hid]
    · simp [clear_conversation, h]
  · intro h
    simp [clear_conversation, h]

theorem clear_conversation_idempotent_witness :
    noConvs ((some "ghost" : Option String).getD "default") = none ∧
    (clear_conversation noConvs (some "ghost")).2 = noConvs :=
  ⟨rfl, (clear_conversation_idempotent noConvs (some "ghost")).2.2.2 rfl⟩

/-- C10: both handlers mutate at most the single conversation named by
their own identifier: any other key of the `conversations` dict reads back
unchanged after `/api/chat` and after `/api/clear`. -/
theorem handlers_frame (bot : ChatBot) (dm : Bool) (net : ApiRequest → HttpResult)
    (now : String) (cs : Conversations) (message conversation_id : Option String)
    (b : String) (h : b ≠ conversation_id.getD "default") :
    (chat bot dm net now cs message conversation_id).2 b = cs b ∧
    (clear_conversation cs conversation_id).2 b = cs b := by
  constructor
  · by_cases hval : strTrim (message.getD "") = ""
    · simp [chat, hval]
    · simp [chat, hval, h]
  · by_cases hsome : (cs (conversation_id.getD "default")).isSome <;>
      simp [clear_conversation, hsome, h]

theorem handlers_frame_witness :
    ("b" : String) ≠ (some "a" : Option String).getD "default" ∧
    ((chat (mkChatBot none) true exnNet "t" noConvs (some "Hello") (some "a")).2 "b"
        = noConvs "b" ∧
     (clear_conversation noConvs (some "a")).2 "b" = noConvs "b") :=
  ⟨by decide,
   handlers_frame (mkChatBot none) true exnNet "t" noConvs (some "Hello")
     (some "a") "b" (by decide)⟩

end AIChat
